import Mathlib

/-!
Shallow embedding of the job-control shell in `src/src/shell.rs`
(holly-shell). Process ids (`nix::unistd::Pid`, an `i32`) are modelled
as `Int`; the tables of the `Worker` struct are modelled as association
lists; side effects (printing to stderr, sending on the reply channel,
`tcsetpgrp`, `killpg`) are reified as an explicit list of `Effect`s
emitted by each operation, in program order.
-/

/-- Messages the worker thread receives (`enum WorkerMsg`). -/
inductive WorkerMsg
  | Signal (n : Int)
  | Cmd (s : String)
deriving DecidableEq

/-- Replies sent back to the main (controller) thread. The source file
declares the enum under the name `MainMsg` but every use site calls it
`ShellMsg`; we keep the name used at the use sites. -/
inductive ShellMsg
  | Continue (n : Int)
  | Quit (n : Int)
deriving DecidableEq

/-- The one signal the built-ins send (`Signal::SIGCONT` in `run_fg`). -/
inductive Sig
  | SIGCONT
deriving DecidableEq

/-- Reified side effects of the worker, in program order. -/
inductive Effect
  | eprintln (s : String)
  | reply (m : ShellMsg)
  | tcsetpgrp (fd : Int) (pgid : Int)
  | killpg (pgid : Int) (sig : Sig)
deriving DecidableEq

/-- Execution state of a process (`enum ProcState`). -/
inductive ProcState
  | Run
  | Stop
deriving DecidableEq

/-- Per-process bookkeeping (`struct ProcInfo`). -/
structure ProcInfo where
  state : ProcState
  pgid : Int
deriving DecidableEq

/-- The worker state (`struct Worker`). `jobs` maps a job id to
(process-group id, command text); `pgid_to_pids` maps a pgid to
(job id, member pids); `pid_to_info` maps a pid to its `ProcInfo`. -/
structure Worker where
  exit_value : Int
  fg : Option Int
  jobs : List (Nat × Int × String)
  pgid_to_pids : List (Int × Nat × List Int)
  pid_to_info : List (Int × ProcInfo)
  shell_pgid : Int
deriving DecidableEq

/-- `Worker::new`, with the `tcgetpgrp(STDIN_FILENO)` result passed in
as a parameter instead of performed as a syscall. -/
def Worker.init (shellPgid : Int) : Worker :=
  { exit_value := 0
    fg := none
    jobs := []
    pgid_to_pids := []
    pid_to_info := []
    shell_pgid := shellPgid }

/-- Value of a non-empty all-digit character list, `none` otherwise
(the digit-string part of Rust's `str::parse` for integer types). -/
def digitsVal (cs : List Char) : Option Nat :=
  if cs.isEmpty then none
  else if cs.all (fun c => c.isDigit) then
    some (cs.foldl (fun a c => a * 10 + (c.toNat - 48)) 0)
  else none

/-- Rust's `str::parse::<i32>`: optional sign, digits, i32 range check. -/
def parseI32 (s : String) : Option Int :=
  let p : Bool × List Char :=
    match s.data with
    | '+' :: rest => (false, rest)
    | '-' :: rest => (true, rest)
    | cs => (false, cs)
  match digitsVal p.2 with
  | none => none
  | some v =>
    let n : Int := if p.1 then -(v : Int) else (v : Int)
    if -2147483648 ≤ n ∧ n ≤ 2147483647 then some n else none

/-- Rust's `str::parse::<usize>`: optional `+`, digits, u64 range check. -/
def parseUsize (s : String) : Option Nat :=
  let body : List Char :=
    match s.data with
    | '+' :: rest => rest
    | cs => cs
  match digitsVal body with
  | none => none
  | some v => if v ≤ 18446744073709551615 then some v else none

/-- `Worker::run_exit`. Returns the updated worker, the emitted effects,
and the `bool` the Rust function returns. (The source has the obvious
typos `self.job` for `self.jobs` and `seld` for `send`; the intended
receivers are unambiguous.) -/
def run_exit (w : Worker) (args : List String) : Worker × List Effect × Bool :=
  if !w.jobs.isEmpty then
    let w1 := { w with exit_value := 1 }
    (w1, [Effect.eprintln "HollyShell can\x27t be ended because the job is currently running",
          Effect.reply (ShellMsg.Continue w1.exit_value)], true)
  else
    match args[1]? with
    | some s =>
      match parseI32 s with
      | some n => (w, [Effect.reply (ShellMsg.Quit n)], true)
      | none =>
        let w1 := { w with exit_value := 1 }
        (w1, [Effect.eprintln (s ++ " is invalied argment"),
              Effect.reply (ShellMsg.Continue w1.exit_value)], true)
    | none => (w, [Effect.reply (ShellMsg.Quit w.exit_value)], true)

/-- The trailing error path of `Worker::run_fg` (reached when the
argument does not parse as a `usize` or names no tracked job). -/
def fgNotFound (w1 : Worker) (argStr : String) : Worker × List Effect × Bool :=
  (w1, [Effect.eprintln ("ERROR(HollyShell): The job \x27" ++ argStr ++ "\x27 is not found."),
        Effect.reply (ShellMsg.Continue w1.exit_value)], true)

/-- `Worker::run_fg`. Sets `exit_value` to 1 up front; on success sets
the foreground reference, transfers the terminal (`tcsetpgrp` on
`STDIN_FILENO = 0`) and signals the whole group (`killpg SIGCONT`),
sending no reply; on any failure replies `Continue(1)`. -/
def run_fg (w : Worker) (args : List String) : Worker × List Effect × Bool :=
  let w1 := { w with exit_value := 1 }
  if args.length < 2 then
    (w1, [Effect.eprintln "Usage: fg <数字>",
          Effect.reply (ShellMsg.Continue w1.exit_value)], true)
  else
    let argStr := args.getD 1 ""
    match parseUsize argStr with
    | some n =>
      match w1.jobs.lookup n with
      | some (pgid, cmdText) =>
        ({ w1 with fg := some pgid },
         [Effect.eprintln ("[" ++ toString n ++ "] 再開 \t " ++ cmdText),
          Effect.tcsetpgrp 0 pgid,
          Effect.killpg pgid Sig.SIGCONT], true)
      | none => fgNotFound w1 argStr
    | none => fgNotFound w1 argStr

/-- Modelled from the spec: `Worker::run_jobs` is called from
`built_in_cmd` but its definition is not among the source files. Per the
spec (§4.3) it lists every tracked job in ascending job-id order and
always replies `Continue(previous exit code)` without touching state. -/
def run_jobs (w : Worker) : Worker × List Effect × Bool :=
  (w,
   (w.jobs.map (fun j => Effect.eprintln ("[" ++ toString j.1 ++ "] " ++ j.2.2)))
     ++ [Effect.reply (ShellMsg.Continue w.exit_value)],
   true)

/-- A parsed pipeline: one (program name, argv) pair per stage, as
produced by the external `parse_cmd`. -/
abbrev Cmd := List (String × List String)

/-- `Worker::built_in_cmd`. A pipeline of more than one stage is never a
built-in. Otherwise dispatch on the first stage's program name; note the
source dispatches `"cd"` to `run_fg` (src/src/shell.rs line 217). The
Rust code indexes `cmd[0]`, only reached when the pipeline has at least
one stage; `parse_cmd` never yields an empty pipeline. -/
def built_in_cmd (w : Worker) (cmd : Cmd) : Worker × List Effect × Bool :=
  if cmd.length > 1 then (w, [], false)
  else
    match cmd with
    | [] => (w, [], false)
    | stage :: _ =>
      match stage.1 with
      | "exit" => run_exit w stage.2
      | "jobs" => run_jobs w
      | "fg" => run_fg w stage.2
      | "cd" => run_fg w stage.2
      | _ => (w, [], false)

/-- The `WorkerMsg::Cmd(line)` branch of the worker dispatch loop in
`Worker::spawn`. The external parser `parse_cmd` and the (not in src)
`Worker::spawn_child` are passed in as parameters; `spawnChild` returns
the updated worker, its effects, and the `bool` success flag. -/
def onCmdMsg (parse : String → Except String Cmd)
    (spawnChild : Worker → String → Cmd → Worker × List Effect × Bool)
    (w : Worker) (line : String) : Worker × List Effect :=
  match parse line with
  | Except.ok cmd =>
    let r := built_in_cmd w cmd
    if r.2.2 then (r.1, r.2.1)
    else
      let s := spawnChild r.1 line cmd
      if s.2.2 then (s.1, r.2.1 ++ s.2.1)
      else (s.1, r.2.1 ++ s.2.1 ++ [Effect.reply (ShellMsg.Continue s.1.exit_value)])
  | Except.error e =>
    (w, [Effect.eprintln ("ERROR(HollyShell): " ++ e),
         Effect.reply (ShellMsg.Continue w.exit_value)])

/-- Rust's `str::trim` on the character list: drop leading and trailing
whitespace. (Rust trims per `char::is_whitespace`; the ASCII whitespace
characters relevant to command lines are covered by `Char.isWhitespace`.) -/
def trimChars (cs : List Char) : List Char :=
  ((cs.dropWhile Char.isWhitespace).reverse.dropWhile Char.isWhitespace).reverse

/-- `line.trim()` of the controller loop, as a `String` operation. -/
def strTrim (s : String) : String := ⟨trimChars s.data⟩

/-- The `Ok(line)` branch of the controller loop in `HollyShell::run`:
a line that is empty after trimming is skipped (re-prompt, `none`);
otherwise the *original, untrimmed* `line` is sent to the worker
(`worker_tx.send(WorkerMsg::Cmd(line))`). -/
def controllerForward (line : String) : Option String :=
  if (strTrim line).data.isEmpty then none else some line

/-- What the controller records in history for a non-blank line:
the trimmed text (`rl.add_history_entry(line_trimed)`). -/
def controllerHistoryEntry (line : String) : Option String :=
  if (strTrim line).data.isEmpty then none else some (strTrim line)

/-- Outcome of the controller's end-of-input handling. -/
inductive EofOutcome
  | exitCode (n : Int)
  | panicked
deriving DecidableEq

/-- The message the controller submits on `ReadlineError::Eof`. -/
def eofSubmitted : WorkerMsg := WorkerMsg.Cmd "exit"

/-- The controller's handling of the reply after the implicit `exit` on
end-of-input: only `Quit(n)` terminates the shell with code `n`; any
other reply hits the wildcard `panic!` arm. -/
def onEofReply : ShellMsg → EofOutcome
  | ShellMsg.Quit n => EofOutcome.exitCode n
  | _ => EofOutcome.panicked

/-- One result of the wrapped function `f` in the `syscall` wrapper:
either a success value or a `nix::Error` (an errno). -/
inductive SysRes (T : Type)
  | ok (t : T)
  | err (e : Int)
deriving DecidableEq

/-- errno of EINTR on Linux. -/
def EINTR : Int := 4

/-- Whether a result is the interrupted-call error `nix::Error::EINTR`. -/
def isEintr {T : Type} : SysRes T → Bool
  | SysRes.err e => e == EINTR
  | _ => false

/-- The `syscall` wrapper, run against the sequence of results that
successive calls of `f` would yield: retry on EINTR, return the first
other result. An all-EINTR sequence models the wrapper's infinite
retry loop (`none`). -/
def syscallRun {T : Type} : List (SysRes T) → Option (SysRes T)
  | [] => none
  | r :: rs => if isEintr r then syscallRun rs else some r

/-- `true` iff the effect list contains no send on the reply channel. -/
def noReply (effs : List Effect) : Bool :=
  effs.all (fun e => match e with | Effect.reply _ => false | _ => true)

/-- C8: a parsed pipeline of more than one stage is never handled as a
built-in: `built_in_cmd` returns `false`, changes no state and emits no
effects, even when a stage's program name is a built-in name. -/
theorem builtin_multi_stage_never_builtin (w : Worker) (cmd : Cmd)
    (h : cmd.length > 1) : built_in_cmd w cmd = (w, [], false) := by
  unfold built_in_cmd
  simp [h]

theorem builtin_multi_stage_never_builtin_witness :
    built_in_cmd (Worker.init 100) [("exit", ["exit"]), ("jobs", ["jobs"])] =
      (Worker.init 100, [], false) :=
  builtin_multi_stage_never_builtin (Worker.init 100)
    [("exit", ["exit"]), ("jobs", ["jobs"])] (by decide)

/-- C9: the `syscall` wrapper never surfaces EINTR: on any run of results
whose prefix is all EINTR followed by a first non-EINTR result `r`, the
wrapper returns exactly `r` (success or other error). -/
theorem syscall_returns_first_non_eintr {T : Type}
    (pre : List (SysRes T)) (r : SysRes T) (post : List (SysRes T))
    (hpre : ∀ x ∈ pre, isEintr x = true) (hr : isEintr r = false) :
    syscallRun (pre ++ r :: post) = some r := by
  induction pre with
  | nil => simp [syscallRun, hr]
  | cons a as ih =>
    have ha := hpre a (by simp)
    simp only [List.cons_append, syscallRun, ha, if_true]
    exact ih (fun x hx => hpre x (by simp [hx]))

theorem syscall_returns_first_non_eintr_witness :
    syscallRun [SysRes.err EINTR, SysRes.err EINTR, SysRes.ok (7 : Int), SysRes.err 2] =
      some (SysRes.ok (7 : Int)) :=
  syscall_returns_first_non_eintr [SysRes.err EINTR, SysRes.err EINTR]
    (SysRes.ok (7 : Int)) [SysRes.err 2] (by decide) (by decide)

/-- C10: on end-of-input the controller submits the implicit command
`exit`; a `Quit(n)` reply terminates the shell with code `n`, and every
other reply (in particular `Continue(1)`) hits the `panic!` arm. -/
theorem eof_accepts_only_quit :
    eofSubmitted = WorkerMsg.Cmd "exit" ∧
    (∀ n, onEofReply (ShellMsg.Quit n) = EofOutcome.exitCode n) ∧
    (∀ m, (∀ n, m ≠ ShellMsg.Quit n) → onEofReply m = EofOutcome.panicked) := by
  refine ⟨rfl, fun n => rfl, fun m hm => ?_⟩
  cases m with
  | Continue n => rfl
  | Quit n => exact absurd rfl (hm n)

theorem eof_accepts_only_quit_witness :
    onEofReply (ShellMsg.Continue 1) = EofOutcome.panicked :=
  eof_accepts_only_quit.2.2 (ShellMsg.Continue 1) (fun _ h => ShellMsg.noConfusion h)

/-- C7, counterexample: the controller forwards the line `"  ls"` — with
leading whitespace — verbatim to the worker
(`worker_tx.send(WorkerMsg::Cmd(line))` sends `line`, not `line_trimed`),
so the forwarded text is not whitespace-trimmed. -/
theorem controller_forward_untrimmed_cex :
    controllerForward "  ls" = some "  ls" ∧ strTrim "  ls" = "ls" ∧ "  ls" ≠ "ls" := by
  refine ⟨?_, ?_, ?_⟩ <;> decide

/-- C7, amended: every line the controller forwards to the worker is
non-empty after trimming (blank lines are re-prompted and never reach
the worker), but the forwarded text is the original untrimmed line —
only the history entry receives the trimmed copy. -/
theorem controller_forwards_nonblank (line s : String)
    (h : controllerForward line = some s) :
    s = line ∧ (strTrim s).data.isEmpty = false := by
  unfold controllerForward at h
  split at h
  · exact Option.noConfusion h
  · next hb =>
    injection h with h
    subst h
    exact ⟨rfl, by simpa using hb⟩

theorem controller_forwards_nonblank_witness :
    ("ls -l" : String) = "ls -l" ∧ (strTrim "ls -l").data.isEmpty = false :=
  controller_forwards_nonblank "ls -l" "ls -l" (by decide)

/-- C1: with at least one tracked job, `exit` (any arguments) refuses to
quit: it reports the cannot-exit message, sets the last exit status to 1,
replies `Continue(1)`, never sends a `Quit`, and leaves the job table
(and the other tables and the foreground reference) unchanged. -/
theorem run_exit_with_jobs_refuses (w : Worker) (args : List String)
    (h : w.jobs ≠ []) :
    run_exit w args =
      ({ w with exit_value := 1 },
       [Effect.eprintln "HollyShell can\x27t be ended because the job is currently running",
        Effect.reply (ShellMsg.Continue 1)], true) ∧
    (run_exit w args).1.jobs = w.jobs ∧
    (run_exit w args).1.pgid_to_pids = w.pgid_to_pids ∧
    (run_exit w args).1.pid_to_info = w.pid_to_info ∧
    (run_exit w args).1.fg = w.fg ∧
    (run_exit w args).1.exit_value = 1 ∧
    (∀ n, Effect.reply (ShellMsg.Quit n) ∉ (run_exit w args).2.1) := by
  have hne : w.jobs.isEmpty = false := by
    cases hj : w.jobs with
    | nil => exact absurd hj h
    | cons a as => rfl
  have heq : run_exit w args =
      ({ w with exit_value := 1 },
       [Effect.eprintln "HollyShell can\x27t be ended because the job is currently running",
        Effect.reply (ShellMsg.Continue 1)], true) := by
    unfold run_exit
    simp [hne]
  refine ⟨heq, ?_, ?_, ?_, ?_, ?_, ?_⟩ <;> simp [heq]

theorem run_exit_with_jobs_refuses_witness :
    run_exit { Worker.init 100 with jobs := [(1, (42, "sleep 50"))] } ["exit", "0"] =
      ({ Worker.init 100 with exit_value := 1, jobs := [(1, (42, "sleep 50"))] },
       [Effect.eprintln "HollyShell can\x27t be ended because the job is currently running",
        Effect.reply (ShellMsg.Continue 1)], true) :=
  (run_exit_with_jobs_refuses { Worker.init 100 with jobs := [(1, (42, "sleep 50"))] }
    ["exit", "0"] (by decide)).1

/-- C4: with no tracked jobs, `exit` replies `Quit(n)` when its argument
parses as an `i32` value `n`, replies `Quit(last exit status)` when no
argument is given, and on a present but non-numeric argument reports it
and replies `Continue(1)` instead of quitting. -/
theorem run_exit_no_jobs (w : Worker) (args : List String)
    (h : w.jobs = []) :
    (∀ s n, args[1]? = some s → parseI32 s = some n →
        run_exit w args = (w, [Effect.reply (ShellMsg.Quit n)], true)) ∧
    (args[1]? = none →
        run_exit w args = (w, [Effect.reply (ShellMsg.Quit w.exit_value)], true)) ∧
    (∀ s, args[1]? = some s → parseI32 s = none →
        run_exit w args =
          ({ w with exit_value := 1 },
           [Effect.eprintln (s ++ " is invalied argment"),
            Effect.reply (ShellMsg.Continue 1)], true)) := by
  have hne : w.jobs.isEmpty = true := by simp [h]
  refine ⟨?_, ?_, ?_⟩
  · intro s n hs hn
    unfold run_exit
    simp [hne, hs, hn]
  · intro hs
    unfold run_exit
    simp [hne, hs]
  · intro s hs hn
    unfold run_exit
    simp [hne, hs, hn]

theorem run_exit_no_jobs_witness :
    run_exit (Worker.init 100) ["exit", "3"] =
      (Worker.init 100, [Effect.reply (ShellMsg.Quit 3)], true) :=
  (run_exit_no_jobs (Worker.init 100) ["exit", "3"] (by decide)).1 "3" 3
    (by decide) (by decide)

/-- C2: when `fg`'s argument parses as a job id present in the job
table, `run_fg` sets the foreground reference to that job's pgid,
transfers terminal control to that pgid (`tcsetpgrp`), sends SIGCONT to
the whole group (`killpg`), and sends no reply on the channel to the
controller before returning to the dispatch loop. -/
theorem run_fg_success (w : Worker) (args : List String) (n : Nat)
    (pgid : Int) (cmdText : String)
    (hlen : 2 ≤ args.length)
    (hparse : parseUsize (args.getD 1 "") = some n)
    (hjob : w.jobs.lookup n = some (pgid, cmdText)) :
    run_fg w args =
      ({ w with exit_value := 1, fg := some pgid },
       [Effect.eprintln ("[" ++ toString n ++ "] 再開 \t " ++ cmdText),
        Effect.tcsetpgrp 0 pgid,
        Effect.killpg pgid Sig.SIGCONT], true) ∧
    noReply (run_fg w args).2.1 = true := by
  have hnl : ¬ args.length < 2 := by omega
  rw [List.getD_eq_getElem?_getD] at hparse
  have heq : run_fg w args =
      ({ w with exit_value := 1, fg := some pgid },
       [Effect.eprintln ("[" ++ toString n ++ "] 再開 \t " ++ cmdText),
        Effect.tcsetpgrp 0 pgid,
        Effect.killpg pgid Sig.SIGCONT], true) := by
    unfold run_fg
    simp [hnl, hparse, hjob]
  exact ⟨heq, by rw [heq]; rfl⟩

theorem run_fg_success_witness :
    run_fg { Worker.init 100 with jobs := [(1, (42, "sleep 50"))] } ["fg", "1"] =
      ({ { Worker.init 100 with jobs := [(1, (42, "sleep 50"))] } with exit_value := 1, fg := some 42 },
       [Effect.eprintln ("[" ++ toString 1 ++ "] 再開 \t " ++ "sleep 50"),
        Effect.tcsetpgrp 0 42,
        Effect.killpg 42 Sig.SIGCONT], true) ∧
    noReply (run_fg { Worker.init 100 with jobs := [(1, (42, "sleep 50"))] }
      ["fg", "1"]).2.1 = true :=
  run_fg_success { Worker.init 100 with jobs := [(1, (42, "sleep 50"))] }
    ["fg", "1"] 1 42 "sleep 50" (by decide) (by decide) (by decide)

/-- C5: on a missing argument, a non-numeric argument, or an unknown job
id, `run_fg` reports an error message, replies `Continue(1)`, and leaves
the foreground reference, the job table, the pgid table and the process
table untouched (the effect list shows no terminal transfer either). -/
theorem run_fg_error (w : Worker) (args : List String)
    (h : args.length < 2 ∨ parseUsize (args.getD 1 "") = none ∨
         (∃ n, parseUsize (args.getD 1 "") = some n ∧ w.jobs.lookup n = none)) :
    (run_fg w args).1.fg = w.fg ∧
    (run_fg w args).1.jobs = w.jobs ∧
    (run_fg w args).1.pgid_to_pids = w.pgid_to_pids ∧
    (run_fg w args).1.pid_to_info = w.pid_to_info ∧
    (∃ msg, (run_fg w args).2.1 =
      [Effect.eprintln msg, Effect.reply (ShellMsg.Continue 1)]) ∧
    (run_fg w args).2.2 = true := by
  rcases h with hl | hp | ⟨n, hp, hj⟩
  · unfold run_fg
    simp [hl]
  · rw [List.getD_eq_getElem?_getD] at hp
    by_cases hl : args.length < 2
    · unfold run_fg
      simp [hl]
    · unfold run_fg
      simp [hl, hp, fgNotFound]
  · rw [List.getD_eq_getElem?_getD] at hp
    by_cases hl : args.length < 2
    · unfold run_fg
      simp [hl]
    · unfold run_fg
      simp [hl, hp, hj, fgNotFound]

theorem run_fg_error_witness :
    (run_fg (Worker.init 100) ["fg"]).1.fg = (Worker.init 100).fg ∧
    (run_fg (Worker.init 100) ["fg"]).1.jobs = (Worker.init 100).jobs ∧
    (run_fg (Worker.init 100) ["fg"]).1.pgid_to_pids = (Worker.init 100).pgid_to_pids ∧
    (run_fg (Worker.init 100) ["fg"]).1.pid_to_info = (Worker.init 100).pid_to_info ∧
    (∃ msg, (run_fg (Worker.init 100) ["fg"]).2.1 =
      [Effect.eprintln msg, Effect.reply (ShellMsg.Continue 1)]) ∧
    (run_fg (Worker.init 100) ["fg"]).2.2 = true :=
  run_fg_error (Worker.init 100) ["fg"] (Or.inl (by decide))

/-- C6: when the parser fails on a command line, the worker's `Cmd`
branch reports the error and replies `Continue(previous exit status)`;
the returned worker state is exactly the one received, so the job,
pgid and process tables, the foreground reference and the last exit
status are all unchanged, however `spawn_child` would behave. -/
theorem parse_error_preserves_state (parse : String → Except String Cmd)
    (spawnChild : Worker → String → Cmd → Worker × List Effect × Bool)
    (w : Worker) (line e : String)
    (h : parse line = Except.error e) :
    onCmdMsg parse spawnChild w line =
      (w, [Effect.eprintln ("ERROR(HollyShell): " ++ e),
           Effect.reply (ShellMsg.Continue w.exit_value)]) := by
  unfold onCmdMsg
  rw [h]

theorem parse_error_preserves_state_witness :
    onCmdMsg (fun _ => Except.error "unexpected pipe") (fun w2 _ _ => (w2, [], true))
        (Worker.init 100) "|cmd" =
      (Worker.init 100,
       [Effect.eprintln ("ERROR(HollyShell): " ++ "unexpected pipe"),
        Effect.reply (ShellMsg.Continue (Worker.init 100).exit_value)]) :=
  parse_error_preserves_state (fun _ => Except.error "unexpected pipe")
    (fun w2 _ _ => (w2, [], true)) (Worker.init 100) "|cmd" "unexpected pipe" rfl

/-- C3: the dispatcher in `built_in_cmd` sends the single-stage command
`cd /tmp` to `run_fg` (src/src/shell.rs line 217), not to a
change-directory routine: the worker reports a job-not-found error and
replies `Continue(1)`; no effect changes the working directory. -/
theorem cd_dispatches_to_run_fg :
    built_in_cmd (Worker.init 100) [("cd", ["cd", "/tmp"])] =
      ({ Worker.init 100 with exit_value := 1 },
       [Effect.eprintln "ERROR(HollyShell): The job \x27/tmp\x27 is not found.",
        Effect.reply (ShellMsg.Continue 1)], true) ∧
    built_in_cmd (Worker.init 100) [("cd", ["cd", "/tmp"])] =
      run_fg (Worker.init 100) ["cd", "/tmp"] := by
  refine ⟨?_, ?_⟩ <;> decide
